import Mathlib

/-!
Verification of the PixPerfect backend asset lifecycle (src/server.js).

The server keeps two stores: a SQLite `images` table (rows keyed by
auto-incremented id, scoped by `userId`) and a blob store (the `Uploads`
directory, written by the multer middleware and by sharp transform output,
and deleted with `fs.unlink`).

We embed each route handler as a function from its inputs (request fields,
the database contents at entry, the wall clock, and flags for the outcomes
of the external calls it makes: sharp decode success, SQLite success,
`fs.unlink` success) to the ordered list of storage operations it issues,
together with its final outcome (an HTTP response, or an exception escaping
the handler).  The state transition of each operation is given by `applyOp`;
`run` folds a trace over a state, so intermediate states of a handler are
the states after each trace prefix.  The response/exception is produced
after every operation of the trace, matching the source, where `res.json` /
`res.status(...).json` is the last action of every path.

`fs.unlink(path, cb)` in the source is fire-and-forget: the deletion is
initiated at its program point and its failure only logged.  We model it as
an operation `deleteBlob key ok` taking effect at its program point, where
`ok` records whether the underlying unlink succeeded (on failure the blob
remains).
-/

namespace PixPerfect

/-- A row of the `images` table:
`(id, userId, imagePath, overlayProps, textOverlay, createdAt)`. -/
structure Row where
  id : Nat
  userId : Nat
  imagePath : String
  overlayProps : String
  textOverlay : String
  createdAt : String
deriving DecidableEq, Repr

/-- The `images` table, in insertion (rowid) order. -/
abbrev DB := List Row

/-- Combined storage state: the metadata rows and the set of blob keys
(paths under the upload directory) currently present. -/
structure St where
  db : DB
  blobs : List String
deriving DecidableEq, Repr

/-- A storage operation issued by a handler, in program order. -/
inductive Op where
  | putBlob (key : String)
  | deleteBlob (key : String) (ok : Bool)
  | dbInsert (row : Row)
  | dbUpdate (id uid : Nat) (key props text : String)
  | dbDelete (id uid : Nat)
deriving DecidableEq, Repr

/-- The outcome a handler hands back to the HTTP layer: a response with a
status and a message, or an exception escaping the (async) handler. -/
inductive Outcome where
  | response (status : Nat) (body : String)
  | thrown (msg : String)
deriving DecidableEq, Repr

/-- `SELECT * FROM images WHERE id = ? AND userId = ?` (first match). -/
def findRow (db : DB) (id uid : Nat) : Option Row :=
  db.find? (fun r => r.id == id && r.userId == uid)

/-- Writing a blob under a key: the key becomes present (writing an already
present key overwrites the bytes; the set of keys is unchanged). -/
def putBlobKeys (bs : List String) (k : String) : List String :=
  if k ∈ bs then bs else k :: bs

/-- Effect of one operation on the storage state. -/
def applyOp (s : St) : Op → St
  | .putBlob k => { s with blobs := putBlobKeys s.blobs k }
  | .deleteBlob k ok =>
      if ok then { s with blobs := s.blobs.filter (fun b => b != k) } else s
  | .dbInsert r => { s with db := s.db ++ [r] }
  | .dbUpdate id uid key props text =>
      { s with db := s.db.map (fun r =>
          if r.id == id && r.userId == uid then
            { r with imagePath := key, overlayProps := props, textOverlay := text }
          else r) }
  | .dbDelete id uid =>
      { s with db := s.db.filter (fun r => !(r.id == id && r.userId == uid)) }

/-- Run a trace of operations from a state. -/
def run (s : St) (t : List Op) : St := t.foldl applyOp s

/-- JS `parseInt(s)` (radix 10): skip leading spaces, optional sign, then a
non-empty digit prefix; otherwise `NaN` (modelled as `none`). -/
def parseIntJS (s : String) : Option Int :=
  let core : List Char → Option Nat := fun l =>
    let ds := l.takeWhile Char.isDigit
    if ds.isEmpty then none
    else some (ds.foldl (fun n c => 10 * n + (c.toNat - 48)) 0)
  match s.data.dropWhile (fun c => c == ' ') with
  | '-' :: rest => (core rest).map (fun n => -(n : Int))
  | '+' :: rest => (core rest).map (fun n => (n : Int))
  | l => (core l).map (fun n => (n : Int))

/-- multer `filename`: `` `${Date.now()}-${file.originalname}` ``. -/
def filename (now : Nat) (originalname : String) : String :=
  toString now ++ "-" ++ originalname

/-- `/rotate` output filename: `` `rotated-${Date.now()}.png` ``. -/
def rotatedFilename (now : Nat) : String :=
  "rotated-" ++ toString now ++ ".png"

/-- `/flip` output filename: `` `flipped-${Date.now()}.png` ``. -/
def flippedFilename (now : Nat) : String :=
  "flipped-" ++ toString now ++ ".png"

/-- `JSON.stringify({ x: 50, y: 50, scale: 1, opacity: 1.0, dragging: false })`,
the overlayProps value hard-coded in the `/rotate` and `/flip` handlers. -/
def defaultOverlayProps : String :=
  "\x7b\"x\":50,\"y\":50,\"scale\":1,\"opacity\":1,\"dragging\":false\x7d"

/-- `JSON.stringify({ content: "", font: "Arial", size: 20, color: "#ffffff",
x: 50, y: 50, opacity: 1.0, dragging: false })`, the textOverlay value
hard-coded in the `/rotate` and `/flip` handlers. -/
def defaultTextOverlay : String :=
  "\x7b\"content\":\"\",\"font\":\"Arial\",\"size\":20,\"color\":\"#ffffff\",\"x\":50,\"y\":50,\"opacity\":1,\"dragging\":false\x7d"

/-- Request to `POST /upload`: the multer-stored filename of the uploaded
file if a file part was present, plus the body's overlay fields. -/
structure UploadReq where
  file : Option String
  overlayProps : String
  textOverlay : String

/-- `POST /upload` handler.  multer has already stored the file (when
present) before the handler body runs; with no file, `req.file.filename`
throws a TypeError outside any try/catch. `dbOk` is the success of the
`INSERT`. -/
def uploadHandler (r : UploadReq) (uid nextId : Nat) (nowIso : String)
    (dbOk : Bool) : List Op × Outcome :=
  match r.file with
  | none => ([], .thrown "TypeError: Cannot read properties of undefined (reading filename)")
  | some fname =>
      let key := "/uploads/" ++ fname
      if dbOk then
        ([.putBlob key,
          .dbInsert ⟨nextId, uid, key, r.overlayProps, r.textOverlay, nowIso⟩],
         .response 200 "Image uploaded successfully")
      else
        ([.putBlob key], .response 500 "Failed to save image")

/-- Request to `POST /rotate`: body field `degrees`, the multer-stored input
filename when a file part is present, and whatever overlay fields the body
may carry (the handler never reads them). -/
structure RotateReq where
  degrees : String
  file : Option String
  overlayProps : String
  textOverlay : String

/-- `POST /rotate` handler.  `decodeOk` is whether
`sharp(input).rotate(n).toFile(out)` succeeds on the input bytes (a `NaN`
angle from `parseInt` makes `rotate` throw before any output is written);
`dbOk` is the success of the `INSERT`; `uOk` is the success of the
`fs.unlink` calls on the input file. -/
def rotateHandler (r : RotateReq) (uid now nextId : Nat) (nowIso : String)
    (decodeOk dbOk uOk : Bool) : List Op × Outcome :=
  match r.file with
  | none => ([], .thrown "TypeError: Cannot read properties of undefined (reading path)")
  | some fname =>
      let inputKey := "/Uploads/" ++ fname
      let outputKey := "/Uploads/" ++ rotatedFilename now
      match parseIntJS r.degrees with
      | none =>
          ([.putBlob inputKey, .deleteBlob inputKey uOk],
           .response 500 "Failed to rotate image")
      | some _ =>
          if decodeOk then
            if dbOk then
              ([.putBlob inputKey, .putBlob outputKey, .deleteBlob inputKey uOk,
                .dbInsert ⟨nextId, uid, outputKey, defaultOverlayProps, defaultTextOverlay, nowIso⟩],
               .response 200 "Image rotated successfully")
            else
              ([.putBlob inputKey, .putBlob outputKey, .deleteBlob inputKey uOk,
                .deleteBlob inputKey uOk],
               .response 500 "Failed to rotate image")
          else
            ([.putBlob inputKey, .deleteBlob inputKey uOk],
             .response 500 "Failed to rotate image")

/-- Request to `POST /flip`: body field `direction`, the multer-stored input
filename when present, and ignored overlay fields. -/
structure FlipReq where
  direction : String
  file : Option String
  overlayProps : String
  textOverlay : String

/-- `POST /flip` handler.  `direction` must be the literal `horizontal`
(sharp `flip`, top-to-bottom mirror) or `vertical` (sharp `flop`,
left-to-right mirror); anything else throws `Invalid direction` into the
catch block.  Flags as in `rotateHandler`. -/
def flipHandler (r : FlipReq) (uid now nextId : Nat) (nowIso : String)
    (decodeOk dbOk uOk : Bool) : List Op × Outcome :=
  match r.file with
  | none => ([], .thrown "TypeError: Cannot read properties of undefined (reading path)")
  | some fname =>
      let inputKey := "/Uploads/" ++ fname
      let outputKey := "/Uploads/" ++ flippedFilename now
      if r.direction == "horizontal" || r.direction == "vertical" then
        if decodeOk then
          if dbOk then
            ([.putBlob inputKey, .putBlob outputKey, .deleteBlob inputKey uOk,
              .dbInsert ⟨nextId, uid, outputKey, defaultOverlayProps, defaultTextOverlay, nowIso⟩],
             .response 200 "Image flipped successfully")
          else
            ([.putBlob inputKey, .putBlob outputKey, .deleteBlob inputKey uOk,
              .deleteBlob inputKey uOk],
             .response 500 "Failed to flip image")
        else
          ([.putBlob inputKey, .deleteBlob inputKey uOk],
           .response 500 "Failed to flip image")
      else
        ([.putBlob inputKey, .deleteBlob inputKey uOk],
         .response 500 "Failed to flip image")

/-- Request to `PUT /image`: body fields `id`, `overlayProps`,
`textOverlay`, and the multer-stored filename of the replacement file when a
file part is present. -/
structure PutReq where
  id : Nat
  file : Option String
  overlayProps : String
  textOverlay : String

/-- `PUT /image` handler (replace).  multer stores the new file before the
handler body runs; the handler then checks ownership, initiates deletion of
the old file, and updates the row.  `dbOk` is the success of the `UPDATE`;
`uOk` the success of the unlink of the old file.  `db0` is the table
contents when the handler's `SELECT` runs. -/
def putImageHandler (db0 : DB) (r : PutReq) (uid : Nat)
    (dbOk uOk : Bool) : List Op × Outcome :=
  match r.file with
  | none => ([], .thrown "TypeError: Cannot read properties of undefined (reading filename)")
  | some fname =>
      let newKey := "/Uploads/" ++ fname
      match findRow db0 r.id uid with
      | none => ([.putBlob newKey], .response 404 "Image not found or not authorized")
      | some image =>
          if dbOk then
            ([.putBlob newKey, .deleteBlob image.imagePath uOk,
              .dbUpdate r.id uid newKey r.overlayProps r.textOverlay],
             .response 200 "Image updated successfully")
          else
            ([.putBlob newKey, .deleteBlob image.imagePath uOk],
             .response 500 "Failed to update image")

/-- `GET /image/:id`: the status and the row returned (the row's fields are
the response body on 200; `none` on 404). -/
def getImageResult (db : DB) (id uid : Nat) : Nat × Option Row :=
  match findRow db id uid with
  | none => (404, none)
  | some r => (200, some r)

/-- `GET /images`: `SELECT * FROM images WHERE userId = ?`. -/
def listImages (db : DB) (uid : Nat) : List Row :=
  db.filter (fun r => r.userId == uid)

/-- `DELETE /image/:id` handler.  `uOk` is the success of the `fs.unlink` of
the blob; the row deletion and the response do not consult it. -/
def deleteImageHandler (db0 : DB) (id uid : Nat) (uOk : Bool) :
    List Op × Outcome :=
  match findRow db0 id uid with
  | none => ([], .response 404 "Image not found")
  | some r =>
      ([.deleteBlob r.imagePath uOk, .dbDelete id uid],
       .response 200 "Image deleted successfully")

/-- Well-formedness of the `images` table: `id` is the `AUTOINCREMENT`
primary key, so ids are pairwise distinct. -/
def wfDB (db : DB) : Prop := db.Pairwise (fun a b => a.id ≠ b.id)

/-- `true` iff the metadata row for `(id, uid)` points at a blob key that is
absent from the blob store. -/
def rowDangling (s : St) (id uid : Nat) : Bool :=
  match findRow s.db id uid with
  | some r => !(s.blobs.contains r.imagePath)
  | none => false

/-- A concrete stored asset, used to instantiate the theorems. -/
def exampleRow : Row :=
  ⟨1, 10, "/Uploads/1700000000000-old.png", "props0", "text0", "2024-01-01T00:00:00.000Z"⟩

/-- An asset of a second user. -/
def exampleRowB : Row :=
  ⟨2, 20, "/Uploads/1700000000002-b.png", "propsB", "textB", "2024-01-02T00:00:00.000Z"⟩

/-- A one-row table owned by user 10. -/
def exampleDB : DB := [exampleRow]

/-- A two-row table with one asset each for users 10 and 20. -/
def exampleDB2 : DB := [exampleRow, exampleRowB]

/-- Storage state matching `exampleDB`. -/
def exampleSt : St := ⟨exampleDB, ["/Uploads/1700000000000-old.png"]⟩

/-- A concrete replace request for asset 1 with a fresh upload. -/
def examplePutReq : PutReq := ⟨1, some "1700000000001-new.png", "props1", "text1"⟩

/- ---------------------------------------------------------------- -/
/- Helper lemmas                                                    -/
/- ---------------------------------------------------------------- -/

theorem applyOp_db_putBlob (s : St) (k : String) : (applyOp s (.putBlob k)).db = s.db := rfl

theorem applyOp_db_deleteBlob (s : St) (k : String) (ok : Bool) :
    (applyOp s (.deleteBlob k ok)).db = s.db := by
  cases ok <;> rfl

theorem findRow_some {db : DB} {id uid : Nat} {r : Row}
    (h : findRow db id uid = some r) : r ∈ db ∧ r.id = id ∧ r.userId = uid := by
  unfold findRow at h
  have hm := List.mem_of_find?_eq_some h
  have hp := List.find?_some h
  simp only [Bool.and_eq_true, beq_iff_eq] at hp
  exact ⟨hm, hp.1, hp.2⟩

theorem findRow_eq_none_iff {db : DB} {id uid : Nat} :
    findRow db id uid = none ↔ ∀ r ∈ db, ¬(r.id = id ∧ r.userId = uid) := by
  unfold findRow
  rw [List.find?_eq_none]
  constructor
  · intro h r hr hc
    exact h r hr (by simp [hc.1, hc.2])
  · intro h r hr hb
    simp only [Bool.and_eq_true, beq_iff_eq] at hb
    exact h r hr ⟨hb.1, hb.2⟩

theorem wf_row_eq {db : DB} (hwf : wfDB db) {a b : Row}
    (ha : a ∈ db) (hb : b ∈ db) (hid : a.id = b.id) : a = b := by
  unfold wfDB at hwf
  by_contra hne
  have hsym : Symmetric (fun a b : Row => a.id ≠ b.id) := fun _ _ h => Ne.symm h
  exact (List.Pairwise.forall hsym hwf ha hb hne) hid

theorem mem_putBlobKeys_self (bs : List String) (k : String) : k ∈ putBlobKeys bs k := by
  unfold putBlobKeys
  split
  · assumption
  · exact List.mem_cons_self k bs

theorem filter_putBlobKeys_self (bs : List String) (k : String) :
    (putBlobKeys bs k).filter (fun b => b != k) = bs.filter (fun b => b != k) := by
  unfold putBlobKeys
  split
  · rfl
  · simp [List.filter_cons]

theorem not_mem_filter_bne_self (bs : List String) (k : String) :
    k ∉ bs.filter (fun b => b != k) := by
  simp [List.mem_filter]

theorem mem_filter_putBlobKeys (bs : List String) (k k' : String) (h : k ≠ k') :
    k ∈ (putBlobKeys bs k).filter (fun b => b != k') := by
  refine List.mem_filter.mpr ⟨mem_putBlobKeys_self bs k, ?_⟩
  simp [h]

/- ---------------------------------------------------------------- -/
/- Claims                                                           -/
/- ---------------------------------------------------------------- -/

/-- C1 counterexample: in a concrete replace of an owned asset, after the
first two operations of the handler (the middleware blob write and the
unlink of the old file) — a strict prefix of the replace sequence, before
the row update — the metadata row still points at the previous key, whose
blob this replace has already deleted. -/
theorem C1_counterexample :
    2 < ((putImageHandler exampleDB examplePutReq 10 true true).1).length ∧
    Op.deleteBlob "/Uploads/1700000000000-old.png" true
      ∈ ((putImageHandler exampleDB examplePutReq 10 true true).1).take 2 ∧
    rowDangling (run exampleSt (((putImageHandler exampleDB examplePutReq 10 true true).1).take 2))
      1 10 = true := by
  decide

/-- C1 (amended): during a replace of an existing owned asset the handler
deletes the previous blob before the row update, so at the step after the
first two operations — strictly inside the replace sequence — the metadata
row still points at the previous key, that key's blob has already been
deleted by this replace, and the deletion op has already been issued. -/
theorem C1_amended_delete_before_update (s : St) (r : PutReq) (uid : Nat)
    (fname : String) (image : Row)
    (hf : r.file = some fname)
    (himg : findRow s.db r.id uid = some image) :
    2 < ((putImageHandler s.db r uid true true).1).length ∧
    Op.deleteBlob image.imagePath true ∈ ((putImageHandler s.db r uid true true).1).take 2 ∧
    findRow (run s (((putImageHandler s.db r uid true true).1).take 2)).db r.id uid = some image ∧
    image.imagePath ∉ (run s (((putImageHandler s.db r uid true true).1).take 2)).blobs := by
  refine ⟨?_, ?_, ?_, ?_⟩ <;>
    simp [putImageHandler, hf, himg, run, applyOp, List.mem_filter]

/-- C1 witness for the amended theorem at the concrete one-row store. -/
theorem C1_amended_witness :
    2 < ((putImageHandler exampleDB examplePutReq 10 true true).1).length ∧
    Op.deleteBlob exampleRow.imagePath true
      ∈ ((putImageHandler exampleDB examplePutReq 10 true true).1).take 2 ∧
    findRow (run exampleSt (((putImageHandler exampleDB examplePutReq 10 true true).1).take 2)).db
      1 10 = some exampleRow ∧
    exampleRow.imagePath
      ∉ (run exampleSt (((putImageHandler exampleDB examplePutReq 10 true true).1).take 2)).blobs :=
  C1_amended_delete_before_update exampleSt examplePutReq 10 "1700000000001-new.png"
    exampleRow rfl (by decide)

/-- C2 counterexample: a replace naming a nonexistent asset id does answer
404, but a blob has already been written: the uploaded file's key is
present in the blob store after the request. -/
theorem C2_counterexample :
    (putImageHandler [] examplePutReq 7 true true).2
      = .response 404 "Image not found or not authorized" ∧
    "/Uploads/1700000000001-new.png"
      ∈ (run ⟨[], []⟩ (putImageHandler [] examplePutReq 7 true true).1).blobs := by
  decide

/-- C2 (amended): a replace naming a nonexistent or unowned asset id fails
with 404, leaves the metadata store unchanged and deletes no blob, but the
new upload has already been written to blob storage by the multer
middleware before the ownership check runs. -/
theorem C2_amended_404_after_blob_write (s : St) (r : PutReq) (uid : Nat)
    (fname : String) (dbOk uOk : Bool)
    (hf : r.file = some fname)
    (hnone : findRow s.db r.id uid = none) :
    (putImageHandler s.db r uid dbOk uOk).2
      = .response 404 "Image not found or not authorized" ∧
    (run s (putImageHandler s.db r uid dbOk uOk).1).db = s.db ∧
    (∀ k ok, Op.deleteBlob k ok ∉ (putImageHandler s.db r uid dbOk uOk).1) ∧
    (run s (putImageHandler s.db r uid dbOk uOk).1).blobs
      = putBlobKeys s.blobs ("/Uploads/" ++ fname) := by
  simp [putImageHandler, hf, hnone, run, applyOp]

/-- C2 witness: replacing the absent id 5 in the one-row store answers 404,
keeps the table, and leaves the fresh upload in blob storage. -/
theorem C2_witness :
    (putImageHandler exampleDB ⟨5, some "1700000000001-new.png", "p", "t"⟩ 10 true true).2
      = .response 404 "Image not found or not authorized" ∧
    (run exampleSt (putImageHandler exampleDB ⟨5, some "1700000000001-new.png", "p", "t"⟩ 10 true true).1).db
      = exampleDB ∧
    "/Uploads/1700000000001-new.png"
      ∈ (run exampleSt (putImageHandler exampleSt.db ⟨5, some "1700000000001-new.png", "p", "t"⟩ 10 true true).1).blobs := by
  have h := C2_amended_404_after_blob_write exampleSt ⟨5, some "1700000000001-new.png", "p", "t"⟩
    10 "1700000000001-new.png" true true rfl (by decide)
  refine ⟨h.1, h.2.1, ?_⟩
  rw [h.2.2.2]
  exact mem_putBlobKeys_self _ _

/-- C3 counterexample: `degrees = "abc"` makes `/rotate` answer 500
(`Failed to rotate image`), not 400, and `direction = "diagonal"` makes
`/flip` answer 500; moreover a blob write (the multer input file) did
occur during the rotate request. -/
theorem C3_counterexample :
    (rotateHandler ⟨"abc", some "1700000000000-img.png", "p", "t"⟩ 1 1700000000000 1 "iso" true true true).2
      = .response 500 "Failed to rotate image" ∧
    (flipHandler ⟨"diagonal", some "1700000000000-img.png", "p", "t"⟩ 1 1700000000000 1 "iso" true true true).2
      = .response 500 "Failed to flip image" ∧
    Op.putBlob "/Uploads/1700000000000-img.png"
      ∈ (rotateHandler ⟨"abc", some "1700000000000-img.png", "p", "t"⟩ 1 1700000000000 1 "iso" true true true).1 := by
  decide

/-- C3 (amended): an invalid transform parameter — non-integer `degrees`
for rotate, or a `direction` outside horizontal/vertical for flip — makes
the handler answer HTTP 500, not 400; no metadata row is written and no
output blob is created, and the temporary input blob written by the upload
middleware is deleted again before the response, so it is absent from the
final blob store. -/
theorem C3_amended_invalid_param_500 (s : St) (uid now nextId : Nat) (nowIso : String)
    (rr : RotateReq) (fr : FlipReq) (rf ff : String) (decodeOk dbOk : Bool)
    (hrf : rr.file = some rf) (hdeg : parseIntJS rr.degrees = none)
    (hff : fr.file = some ff)
    (hdir1 : fr.direction ≠ "horizontal") (hdir2 : fr.direction ≠ "vertical") :
    ((rotateHandler rr uid now nextId nowIso decodeOk dbOk true).2
        = .response 500 "Failed to rotate image" ∧
      (run s (rotateHandler rr uid now nextId nowIso decodeOk dbOk true).1).db = s.db ∧
      (run s (rotateHandler rr uid now nextId nowIso decodeOk dbOk true).1).blobs
        = s.blobs.filter (fun b => b != "/Uploads/" ++ rf)) ∧
    ((flipHandler fr uid now nextId nowIso decodeOk dbOk true).2
        = .response 500 "Failed to flip image" ∧
      (run s (flipHandler fr uid now nextId nowIso decodeOk dbOk true).1).db = s.db ∧
      (run s (flipHandler fr uid now nextId nowIso decodeOk dbOk true).1).blobs
        = s.blobs.filter (fun b => b != "/Uploads/" ++ ff)) := by
  have hd : (fr.direction == "horizontal" || fr.direction == "vertical") = false := by
    simp [hdir1, hdir2]
  constructor
  · simp [rotateHandler, hrf, hdeg, run, applyOp, filter_putBlobKeys_self]
  · simp [flipHandler, hff, hd, run, applyOp, filter_putBlobKeys_self]

/-- C3 witness: `rotate("abc")` and `mirror("diagonal")` at the concrete
store: 500 on both, table unchanged, input blob cleaned up. -/
theorem C3_witness :
    ((rotateHandler ⟨"abc", some "1700000000003-i.png", "p", "t"⟩ 10 1700000000003 2 "iso" true true true).2
        = .response 500 "Failed to rotate image" ∧
      (run exampleSt (rotateHandler ⟨"abc", some "1700000000003-i.png", "p", "t"⟩ 10 1700000000003 2 "iso" true true true).1).db
        = exampleDB ∧
      (run exampleSt (rotateHandler ⟨"abc", some "1700000000003-i.png", "p", "t"⟩ 10 1700000000003 2 "iso" true true true).1).blobs
        = exampleSt.blobs.filter (fun b => b != "/Uploads/" ++ "1700000000003-i.png")) ∧
    ((flipHandler ⟨"diagonal", some "1700000000003-i.png", "p", "t"⟩ 10 1700000000003 2 "iso" true true true).2
        = .response 500 "Failed to flip image" ∧
      (run exampleSt (flipHandler ⟨"diagonal", some "1700000000003-i.png", "p", "t"⟩ 10 1700000000003 2 "iso" true true true).1).db
        = exampleDB ∧
      (run exampleSt (flipHandler ⟨"diagonal", some "1700000000003-i.png", "p", "t"⟩ 10 1700000000003 2 "iso" true true true).1).blobs
        = exampleSt.blobs.filter (fun b => b != "/Uploads/" ++ "1700000000003-i.png")) :=
  C3_amended_invalid_param_500 exampleSt 10 1700000000003 2 "iso"
    ⟨"abc", some "1700000000003-i.png", "p", "t"⟩
    ⟨"diagonal", some "1700000000003-i.png", "p", "t"⟩
    "1700000000003-i.png" "1700000000003-i.png" true true
    rfl (by decide) rfl (by decide) (by decide)

/-- C4: an asset A owned by user U1 is invisible under a credential for
U2 ≠ U1: `GET /image/:id` returns the same `(404, none)` result as for a
nonexistent id, never A's data, and `GET /images` for U2 never lists A. -/
theorem C4_ownership_isolation (db : DB) (A : Row) (u2 : Nat)
    (hwf : wfDB db) (hA : A ∈ db) (hne : A.userId ≠ u2) :
    getImageResult db A.id u2 = (404, none) ∧ A ∉ listImages db u2 := by
  have hnone : findRow db A.id u2 = none := by
    rw [findRow_eq_none_iff]
    intro r hr hc
    have hrA : r = A := wf_row_eq hwf hr hA hc.1
    rw [hrA] at hc
    exact hne hc.2
  refine ⟨by simp [getImageResult, hnone], ?_⟩
  intro hmem
  unfold listImages at hmem
  have hm := List.mem_filter.mp hmem
  simp only [beq_iff_eq] at hm
  exact hne hm.2

/-- C4 witness: with a two-user table, user 20 cannot see user 10's
asset 1. -/
theorem C4_witness :
    getImageResult exampleDB2 1 20 = (404, none) ∧ exampleRow ∉ listImages exampleDB2 20 :=
  C4_ownership_isolation exampleDB2 exampleRow 20 (by unfold wfDB; decide) (by decide)
    (by decide)

/-- C5 (code bug): the multer storage key is `` `${Date.now()}-${originalname}` ``,
a pure function of the wall clock and the client-supplied name, so two put
calls with an identical `suggestedName` in the same millisecond receive the
same key — the second write silently overwrites the first blob. -/
theorem C5_wallclock_key_determinism (t1 t2 : Nat) (n1 n2 : String)
    (ht : t1 = t2) (hn : n1 = n2) :
    filename t1 n1 = filename t2 n2 ∧ filename t1 n1 = toString t1 ++ "-" ++ n1 := by
  subst ht
  subst hn
  exact ⟨rfl, rfl⟩

/-- C5 witness: two uploads named `img.png` at millisecond 1700000000000
both get the key `1700000000000-img.png`. -/
theorem C5_witness :
    filename 1700000000000 "img.png" = filename 1700000000000 "img.png" ∧
    filename 1700000000000 "img.png" = toString 1700000000000 ++ "-" ++ "img.png" :=
  C5_wallclock_key_determinism 1700000000000 1700000000000 "img.png" "img.png" rfl rfl

/-- C6: once `DELETE /image/:id` succeeds for an owned asset, the result is
`200`, the final table contents do not depend on whether the blob unlink
succeeded, and `GET /image/:id` afterwards answers `(404, none)` under every
credential. -/
theorem C6_delete_completeness (s : St) (id uid : Nat) (r0 : Row) (uOk uOk2 : Bool)
    (hwf : wfDB s.db) (hfound : findRow s.db id uid = some r0) :
    (deleteImageHandler s.db id uid uOk).2 = .response 200 "Image deleted successfully" ∧
    (run s (deleteImageHandler s.db id uid uOk).1).db
      = (run s (deleteImageHandler s.db id uid uOk2).1).db ∧
    ∀ uid2, getImageResult (run s (deleteImageHandler s.db id uid uOk).1).db id uid2 = (404, none) := by
  obtain ⟨hmem, hid, huid⟩ := findRow_some hfound
  have hdb : ∀ ok : Bool, (run s (deleteImageHandler s.db id uid ok).1).db
      = s.db.filter (fun r => !(r.id == id && r.userId == uid)) := by
    intro ok
    simp only [deleteImageHandler, hfound]
    cases ok <;> simp [run, applyOp]
  refine ⟨by simp [deleteImageHandler, hfound], by rw [hdb, hdb], ?_⟩
  intro uid2
  have hnone : findRow (run s (deleteImageHandler s.db id uid uOk).1).db id uid2 = none := by
    rw [hdb, findRow_eq_none_iff]
    intro r hr hc
    have hr' := List.mem_filter.mp hr
    have hrr : r = r0 := wf_row_eq hwf hr'.1 hmem (hc.1.trans hid.symm)
    subst hrr
    simp [hid, huid] at hr'
  simp [getImageResult, hnone]

/-- C6 witness: deleting asset 1 of user 10 answers 200 and a later lookup
of id 1 under user 99 answers `(404, none)`. -/
theorem C6_witness :
    (deleteImageHandler exampleDB 1 10 true).2 = .response 200 "Image deleted successfully" ∧
    getImageResult (run exampleSt (deleteImageHandler exampleDB 1 10 true).1).db 1 99 = (404, none) := by
  have h := C6_delete_completeness exampleSt 1 10 exampleRow true false
    (by unfold wfDB; decide) (by decide)
  exact ⟨h.1, h.2.2 99⟩

/-- C7: a successful rotate or flip answers 200 and appends a row whose
overlay fields are exactly the hard-coded defaults (centered position,
scale 1, opacity 1, empty text) — the overlay values carried by the request
(`rr.overlayProps`, `rr.textOverlay`, `fr.overlayProps`, `fr.textOverlay`)
are arbitrary here and never reach the stored row. -/
theorem C7_overlay_reset (s : St) (rr : RotateReq) (fr : FlipReq)
    (uid now nextId : Nat) (nowIso : String) (uOk : Bool) (rf ff : String) (d : Int)
    (hrf : rr.file = some rf) (hdeg : parseIntJS rr.degrees = some d)
    (hff : fr.file = some ff)
    (hdir : fr.direction = "horizontal" ∨ fr.direction = "vertical") :
    (rotateHandler rr uid now nextId nowIso true true uOk).2
      = .response 200 "Image rotated successfully" ∧
    (run s (rotateHandler rr uid now nextId nowIso true true uOk).1).db
      = s.db ++ [⟨nextId, uid, "/Uploads/" ++ rotatedFilename now,
                  defaultOverlayProps, defaultTextOverlay, nowIso⟩] ∧
    (flipHandler fr uid now nextId nowIso true true uOk).2
      = .response 200 "Image flipped successfully" ∧
    (run s (flipHandler fr uid now nextId nowIso true true uOk).1).db
      = s.db ++ [⟨nextId, uid, "/Uploads/" ++ flippedFilename now,
                  defaultOverlayProps, defaultTextOverlay, nowIso⟩] := by
  have hd : (fr.direction == "horizontal" || fr.direction == "vertical") = true := by
    rcases hdir with h | h <;> simp [h]
  refine ⟨?_, ?_, ?_, ?_⟩ <;>
    cases uOk <;> simp [rotateHandler, flipHandler, hrf, hdeg, hff, hd, run, applyOp]

/-- C7 witness: rotate by 90 and flip horizontally at the concrete store;
the inserted rows carry the default overlays although the requests supplied
`"custom"` overlay values. -/
theorem C7_witness :
    (rotateHandler ⟨"90", some "1700000000003-i.png", "custom", "custom"⟩ 10 1700000000003 2 "iso" true true true).2
      = .response 200 "Image rotated successfully" ∧
    (run exampleSt (rotateHandler ⟨"90", some "1700000000003-i.png", "custom", "custom"⟩ 10 1700000000003 2 "iso" true true true).1).db
      = exampleSt.db ++ [⟨2, 10, "/Uploads/" ++ rotatedFilename 1700000000003,
                          defaultOverlayProps, defaultTextOverlay, "iso"⟩] ∧
    (flipHandler ⟨"horizontal", some "1700000000003-i.png", "custom", "custom"⟩ 10 1700000000003 2 "iso" true true true).2
      = .response 200 "Image flipped successfully" ∧
    (run exampleSt (flipHandler ⟨"horizontal", some "1700000000003-i.png", "custom", "custom"⟩ 10 1700000000003 2 "iso" true true true).1).db
      = exampleSt.db ++ [⟨2, 10, "/Uploads/" ++ flippedFilename 1700000000003,
                          defaultOverlayProps, defaultTextOverlay, "iso"⟩] :=
  C7_overlay_reset exampleSt
    ⟨"90", some "1700000000003-i.png", "custom", "custom"⟩
    ⟨"horizontal", some "1700000000003-i.png", "custom", "custom"⟩
    10 1700000000003 2 "iso" true "1700000000003-i.png" "1700000000003-i.png" 90
    rfl (by decide) rfl (Or.inl rfl)

/-- C8 (code bug): a create request with no file makes the handler evaluate
`req.file.filename` on `undefined` outside any try/catch: the model yields
a thrown TypeError, not an HTTP response — in particular not a 400 — and
issues no storage operation at all. -/
theorem C8_no_file_upload_throws :
    (uploadHandler ⟨none, "p", "t"⟩ 10 1 "2024-01-01T00:00:00.000Z" true).1 = [] ∧
    (uploadHandler ⟨none, "p", "t"⟩ 10 1 "2024-01-01T00:00:00.000Z" true).2
      = .thrown "TypeError: Cannot read properties of undefined (reading filename)" ∧
    ∀ b, (uploadHandler ⟨none, "p", "t"⟩ 10 1 "2024-01-01T00:00:00.000Z" true).2
      ≠ .response 400 b := by
  refine ⟨rfl, rfl, fun b => by simp [uploadHandler]⟩

/-- C9: a successful replace answers 200; the table keeps its length; every
row not matching `(id, uid)` is still present; the target row now carries
the new key and overlay fields but its id, userId and createdAt are those
of the pre-replace row; and every row of the new table is either an old row
or that single updated row. -/
theorem C9_replace_frame (s : St) (r : PutReq) (uid : Nat) (fname : String)
    (uOk : Bool) (image : Row)
    (hwf : wfDB s.db) (hf : r.file = some fname)
    (himg : findRow s.db r.id uid = some image) :
    (putImageHandler s.db r uid true uOk).2 = .response 200 "Image updated successfully" ∧
    (run s (putImageHandler s.db r uid true uOk).1).db.length = s.db.length ∧
    (∀ q ∈ s.db, ¬(q.id = r.id ∧ q.userId = uid) →
      q ∈ (run s (putImageHandler s.db r uid true uOk).1).db) ∧
    findRow (run s (putImageHandler s.db r uid true uOk).1).db r.id uid
      = some { image with imagePath := "/Uploads/" ++ fname,
                          overlayProps := r.overlayProps, textOverlay := r.textOverlay } ∧
    ∀ q ∈ (run s (putImageHandler s.db r uid true uOk).1).db,
      q ∈ s.db ∨ q = { image with imagePath := "/Uploads/" ++ fname,
                                  overlayProps := r.overlayProps, textOverlay := r.textOverlay } := by
  obtain ⟨hmem, hid, huid⟩ := findRow_some himg
  have hdb : (run s (putImageHandler s.db r uid true uOk).1).db
      = s.db.map (fun q => if q.id == r.id && q.userId == uid then
          { q with imagePath := "/Uploads/" ++ fname,
                   overlayProps := r.overlayProps, textOverlay := r.textOverlay } else q) := by
    simp only [putImageHandler, hf, himg]
    cases uOk <;> simp [run, applyOp]
  refine ⟨by simp [putImageHandler, hf, himg], ?_, ?_, ?_, ?_⟩
  · rw [hdb]
    exact List.length_map _ _
  · intro q hq hnot
    rw [hdb]
    have hfalse : ¬((q.id == r.id && q.userId == uid) = true) := by
      intro h
      simp only [Bool.and_eq_true, beq_iff_eq] at h
      exact hnot ⟨h.1, h.2⟩
    exact List.mem_map.mpr ⟨q, hq, by rw [if_neg hfalse]⟩
  · rw [hdb]
    unfold findRow
    rw [List.find?_map]
    have hpf : ((fun x : Row => x.id == r.id && x.userId == uid) ∘
        (fun q => if q.id == r.id && q.userId == uid then
          { q with imagePath := "/Uploads/" ++ fname,
                   overlayProps := r.overlayProps, textOverlay := r.textOverlay } else q))
        = (fun x : Row => x.id == r.id && x.userId == uid) := by
      funext q
      simp only [Function.comp_apply]
      by_cases h : (q.id == r.id && q.userId == uid) = true
      · rw [if_pos h]
      · rw [if_neg h]
    rw [hpf]
    unfold findRow at himg
    rw [himg, Option.map_some']
    rw [if_pos (by simp [hid, huid])]
  · rw [hdb]
    intro q hq
    obtain ⟨x, hx, hfx⟩ := List.mem_map.mp hq
    by_cases h : (x.id == r.id && x.userId == uid) = true
    · right
      have h' := h
      simp only [Bool.and_eq_true, beq_iff_eq] at h'
      have hxim : x = image := wf_row_eq hwf hx hmem (h'.1.trans hid.symm)
      subst hxim
      rw [← hfx, if_pos h]
    · left
      rw [← hfx, if_neg h]
      exact hx

/-- C9 witness: replacing asset 1 of user 10 in the one-row store keeps
id 1, userId 10, and the creation date, while repointing the key and
overlay fields. -/
theorem C9_witness :
    (putImageHandler exampleSt.db examplePutReq 10 true true).2
      = .response 200 "Image updated successfully" ∧
    findRow (run exampleSt (putImageHandler exampleSt.db examplePutReq 10 true true).1).db 1 10
      = some ⟨1, 10, "/Uploads/1700000000001-new.png", "props1", "text1",
              "2024-01-01T00:00:00.000Z"⟩ := by
  have h := C9_replace_frame exampleSt examplePutReq 10 "1700000000001-new.png" true exampleRow
    (by unfold wfDB; decide) rfl (by decide)
  exact ⟨h.1, h.2.2.2.1⟩

/-- C10 counterexample: a rotate whose image transform succeeds but whose
metadata INSERT fails answers 500 — a failure path — yet the transformed
output blob remains in the blob store after the request, so more than
"only the output blob on success" can remain. -/
theorem C10_counterexample :
    (rotateHandler ⟨"90", some "1700000000000-img.png", "p", "t"⟩ 10 1700000000000 2 "iso" true false true).2
      = .response 500 "Failed to rotate image" ∧
    "/Uploads/rotated-1700000000000.png"
      ∈ (run ⟨[], []⟩ (rotateHandler ⟨"90", some "1700000000000-img.png", "p", "t"⟩ 10 1700000000000 2 "iso" true false true).1).blobs := by
  decide

/-- C10 (amended): for every rotate/flip request carrying a file —
whatever its `degrees` or `direction` and whatever the transform or insert
outcome — a deletion of the temporary input blob is issued before the
response, and when the unlink succeeds the input key is absent from the
final blob store; on the success path (which requires a parseable
`degrees` resp. valid `direction`) the output blob is present; but when
the transform succeeded and the metadata insert failed, the request fails
with 500 while the orphaned output blob remains in storage. -/
theorem C10_amended_input_cleanup (s : St) (rr : RotateReq) (fr : FlipReq)
    (uid now nextId : Nat) (nowIso : String) (rf ff : String)
    (hrf : rr.file = some rf) (hff : fr.file = some ff)
    (hout : "/Uploads/" ++ rotatedFilename now ≠ "/Uploads/" ++ rf)
    (houtf : "/Uploads/" ++ flippedFilename now ≠ "/Uploads/" ++ ff) :
    (∀ decodeOk dbOk uOk,
        Op.deleteBlob ("/Uploads/" ++ rf) uOk
          ∈ (rotateHandler rr uid now nextId nowIso decodeOk dbOk uOk).1 ∧
        Op.deleteBlob ("/Uploads/" ++ ff) uOk
          ∈ (flipHandler fr uid now nextId nowIso decodeOk dbOk uOk).1) ∧
    (∀ decodeOk dbOk,
        ("/Uploads/" ++ rf)
          ∉ (run s (rotateHandler rr uid now nextId nowIso decodeOk dbOk true).1).blobs ∧
        ("/Uploads/" ++ ff)
          ∉ (run s (flipHandler fr uid now nextId nowIso decodeOk dbOk true).1).blobs) ∧
    (∀ d : Int, parseIntJS rr.degrees = some d →
        ("/Uploads/" ++ rotatedFilename now)
          ∈ (run s (rotateHandler rr uid now nextId nowIso true true true).1).blobs ∧
        ((rotateHandler rr uid now nextId nowIso true false true).2
            = .response 500 "Failed to rotate image" ∧
          ("/Uploads/" ++ rotatedFilename now)
            ∈ (run s (rotateHandler rr uid now nextId nowIso true false true).1).blobs)) ∧
    ((fr.direction = "horizontal" ∨ fr.direction = "vertical") →
        ("/Uploads/" ++ flippedFilename now)
          ∈ (run s (flipHandler fr uid now nextId nowIso true true true).1).blobs ∧
        ((flipHandler fr uid now nextId nowIso true false true).2
            = .response 500 "Failed to flip image" ∧
          ("/Uploads/" ++ flippedFilename now)
            ∈ (run s (flipHandler fr uid now nextId nowIso true false true).1).blobs)) := by
  refine ⟨?_, ?_, ?_, ?_⟩
  · intro decodeOk dbOk uOk
    constructor
    · cases hp : parseIntJS rr.degrees <;> cases decodeOk <;> cases dbOk <;>
        simp [rotateHandler, hrf, hp]
    · cases hb : (fr.direction == "horizontal" || fr.direction == "vertical") <;>
        cases decodeOk <;> cases dbOk <;> simp [flipHandler, hff, hb]
  · intro decodeOk dbOk
    constructor
    · cases hp : parseIntJS rr.degrees <;> cases decodeOk <;> cases dbOk <;>
        simp [rotateHandler, hrf, hp, run, applyOp, List.mem_filter]
    · cases hb : (fr.direction == "horizontal" || fr.direction == "vertical") <;>
        cases decodeOk <;> cases dbOk <;>
        simp [flipHandler, hff, hb, run, applyOp, List.mem_filter]
  · intro d hdeg
    refine ⟨?_, ?_, ?_⟩
    · have e : (run s (rotateHandler rr uid now nextId nowIso true true true).1).blobs
          = ((putBlobKeys (putBlobKeys s.blobs ("/Uploads/" ++ rf))
                ("/Uploads/" ++ rotatedFilename now)).filter
              (fun b => b != "/Uploads/" ++ rf)) := by
        simp [rotateHandler, hrf, hdeg, run, applyOp]
      rw [e]
      exact mem_filter_putBlobKeys _ _ _ hout
    · simp [rotateHandler, hrf, hdeg]
    · have e : (run s (rotateHandler rr uid now nextId nowIso true false true).1).blobs
          = ((putBlobKeys (putBlobKeys s.blobs ("/Uploads/" ++ rf))
                ("/Uploads/" ++ rotatedFilename now)).filter
              (fun b => b != "/Uploads/" ++ rf)) := by
        simp [rotateHandler, hrf, hdeg, run, applyOp]
      rw [e]
      exact mem_filter_putBlobKeys _ _ _ hout
  · intro hdir
    have hd : (fr.direction == "horizontal" || fr.direction == "vertical") = true := by
      rcases hdir with h | h <;> simp [h]
    refine ⟨?_, ?_, ?_⟩
    · have e : (run s (flipHandler fr uid now nextId nowIso true true true).1).blobs
          = ((putBlobKeys (putBlobKeys s.blobs ("/Uploads/" ++ ff))
                ("/Uploads/" ++ flippedFilename now)).filter
              (fun b => b != "/Uploads/" ++ ff)) := by
        simp [flipHandler, hff, hd, run, applyOp]
      rw [e]
      exact mem_filter_putBlobKeys _ _ _ houtf
    · simp [flipHandler, hff, hd]
    · have e : (run s (flipHandler fr uid now nextId nowIso true false true).1).blobs
          = ((putBlobKeys (putBlobKeys s.blobs ("/Uploads/" ++ ff))
                ("/Uploads/" ++ flippedFilename now)).filter
              (fun b => b != "/Uploads/" ++ ff)) := by
        simp [flipHandler, hff, hd, run, applyOp]
      rw [e]
      exact mem_filter_putBlobKeys _ _ _ houtf

/-- C10 witness for the amended theorem at concrete rotate/flip requests. -/
theorem C10_witness :
    (Op.deleteBlob ("/Uploads/" ++ "1700000000003-i.png") true
        ∈ (rotateHandler ⟨"90", some "1700000000003-i.png", "p", "t"⟩ 10 1700000000003 2 "iso" true true true).1 ∧
      Op.deleteBlob ("/Uploads/" ++ "1700000000003-i.png") true
        ∈ (flipHandler ⟨"vertical", some "1700000000003-i.png", "p", "t"⟩ 10 1700000000003 2 "iso" true true true).1) ∧
    ("/Uploads/" ++ "1700000000003-i.png")
      ∉ (run exampleSt (rotateHandler ⟨"90", some "1700000000003-i.png", "p", "t"⟩ 10 1700000000003 2 "iso" true true true).1).blobs ∧
    ("/Uploads/" ++ rotatedFilename 1700000000003)
      ∈ (run exampleSt (rotateHandler ⟨"90", some "1700000000003-i.png", "p", "t"⟩ 10 1700000000003 2 "iso" true true true).1).blobs ∧
    ((rotateHandler ⟨"90", some "1700000000003-i.png", "p", "t"⟩ 10 1700000000003 2 "iso" true false true).2
        = .response 500 "Failed to rotate image" ∧
      ("/Uploads/" ++ rotatedFilename 1700000000003)
        ∈ (run exampleSt (rotateHandler ⟨"90", some "1700000000003-i.png", "p", "t"⟩ 10 1700000000003 2 "iso" true false true).1).blobs) := by
  have h := C10_amended_input_cleanup exampleSt
    ⟨"90", some "1700000000003-i.png", "p", "t"⟩
    ⟨"vertical", some "1700000000003-i.png", "p", "t"⟩
    10 1700000000003 2 "iso" "1700000000003-i.png" "1700000000003-i.png"
    rfl rfl (by decide) (by decide)
  have h3 := h.2.2.1 90 (by decide)
  exact ⟨h.1 true true true, (h.2.1 true true).1, h3.1, h3.2⟩

end PixPerfect
